import Mathlib

/-
Verification of the document-analysis core of docsignals-react.

The analysis pipeline (src/analysis) is embedded shallowly:

- HTML parsing itself is performed by the browser's DOMParser, which is the
  external Document Parser Adapter of the design; the analysis functions
  receive a parsed tree.  We therefore model a parsed document directly as a
  tree of element and text nodes (tag names already lowercased by the
  parser, attribute lists, ordered children) plus the information about the
  root html element that checkSemantics reads (its attribute list).
- JavaScript numbers are modelled exactly: integer counters as Nat, the
  floating-point ratio divRatio as a rational number, and the NaN value that
  arises from the division 0/0 in the coverage computation as the value
  none of an Option Nat (Math.round and Math.min propagate NaN, and every
  ordered comparison against NaN is false).
- String.trim / String.toLower stand in for the JavaScript trim() and
  toLowerCase(); on the ASCII text handled here they agree.
- JavaScript string .length counts UTF-16 code units; Lean String.length
  counts code points.  Only lengths of the same strings are ever compared
  against each other or against zero, so the difference is immaterial here.
-/

namespace DocSignals

/-- Attribute list of one element: ordered name/value pairs as produced by
the HTML parser (attribute names are unique on a parsed element). -/
abbrev Attrs := List (String × String)

/-- One node of a parsed DOM tree: an element (lowercased tag name,
attributes, ordered children) or a text node. -/
inductive Node where
  | element (tag : String) (attrs : Attrs) (children : List Node)
  | text (s : String)

/-- A parsed document as the analysis functions see it: DOMParser in
text/html mode always produces a body element, and checkSemantics reads the
lang attribute from the root html element, whose attribute list is carried
alongside. -/
structure Doc where
  body : Node
  htmlAttrs : Attrs

/-- JavaScript toLowerCase on one character (the documents under analysis
are ASCII; tag names are lowercased by the parser already). -/
def jsLowerChar (c : Char) : Char :=
  if 65 ≤ c.toNat ∧ c.toNat ≤ 90 then Char.ofNat (c.toNat + 32) else c

/-- JavaScript String.prototype.toLowerCase. -/
def jsToLower (s : String) : String :=
  String.mk (s.data.map jsLowerChar)

/-- JavaScript String.prototype.trim: whitespace stripped from both ends. -/
def jsTrim (s : String) : String :=
  String.mk
    (((s.data.dropWhile Char.isWhitespace).reverse.dropWhile Char.isWhitespace).reverse)

/-- Leading-match loop of String.prototype.startsWith. -/
def startsWithList : List Char → List Char → Bool
  | _, [] => true
  | [], _ :: _ => false
  | c :: cs, p :: ps => c == p && startsWithList cs ps

/-- JavaScript String.prototype.startsWith. -/
def jsStartsWith (s searched : String) : Bool :=
  startsWithList s.data searched.data

/-- Element.getAttribute: the value of the named attribute, or none when the
attribute is absent. -/
def getAttr (a : Attrs) (nm : String) : Option String :=
  (a.find? (fun p => p.1 == nm)).map (fun p => p.2)

/-- Element.hasAttribute. -/
def hasAttr (a : Attrs) (nm : String) : Bool :=
  (getAttr a nm).isSome

/-- Tag name of a node (text nodes have none; the empty string never
collides with a real tag name). -/
def tagOf : Node → String
  | .element t _ _ => t
  | .text _ => ""

/-- Attribute list of a node. -/
def attrsOf : Node → Attrs
  | .element _ a _ => a
  | .text _ => []

/-- Child list of a node. -/
def childrenOf : Node → List Node
  | .element _ _ cs => cs
  | .text _ => []

mutual
/-- Node.textContent: concatenation of all text-node data in the subtree,
in document order. -/
def textContent : Node → String
  | .text s => s
  | .element _ _ cs => textContentList cs

def textContentList : List Node → String
  | [] => ""
  | c :: cs => textContent c ++ textContentList cs
end

mutual
/-- All element nodes of a subtree in document (pre-)order, the root
included when it is an element.  This is the order querySelectorAll
enumerates matches in. -/
def elemsOf : Node → List Node
  | .text _ => []
  | .element t a cs => .element t a cs :: elemsOfList cs

def elemsOfList : List Node → List Node
  | [] => []
  | c :: cs => elemsOf c ++ elemsOfList cs
end

/-- document.querySelectorAll(tag).length for a single tag-name selector:
the number of elements with that tag in the subtree. -/
def countTag (t : String) (n : Node) : Nat :=
  (elemsOf n).countP (fun e => tagOf e == t)

/-! ## src/analysis/types.ts -/

/-- NormalizedNode from types.ts: the shape fingerprint of one fetched
sample. -/
structure NormalizedNode where
  tag : String
  childTags : List String
deriving DecidableEq

/-- StructureResult from types.ts.  The TypeScript interface declares
customElements : number, but compare (the only producer of StructureResult)
builds its record from classification, differenceCount and the spread of a
DomMetrics value, which has no customElements field; nothing in the
pipeline ever computes a shadow-DOM-host count.  At runtime the field is
therefore undefined, which is modelled here as an Option that compare
always fills with none. -/
structure StructureResult where
  classification : String
  differenceCount : Nat
  domNodes : Nat
  maxDepth : Nat
  topLevelSections : Nat
  customElements : Option Nat

/-- Headings component of SemanticResult. -/
structure HeadingsInfo where
  h1Count : Nat
  hasSkips : Bool
deriving DecidableEq

/-- Landmarks component of SemanticResult.  coveragePercent is a JavaScript
number that is NaN exactly when the body text is empty (0/0); NaN is
modelled as none. -/
structure LandmarksInfo where
  found : List String
  coveragePercent : Option Nat
deriving DecidableEq

/-- Time-element component of SemanticResult. -/
structure TimeInfo where
  total : Nat
  withDatetime : Nat
deriving DecidableEq

/-- Lists component of SemanticResult. -/
structure ListsInfo where
  total : Nat
  ordered : Nat
  unordered : Nat
  description : Nat
deriving DecidableEq

/-- Tables component of SemanticResult. -/
structure TablesInfo where
  total : Nat
  withHeaders : Nat
deriving DecidableEq

/-- ImageResult from types.ts. -/
structure ImageResult where
  total : Nat
  withAlt : Nat
  emptyAlt : Nat
  missingAlt : Nat
  inFigure : Nat
  withDimensions : Nat
  withSrcset : Nat
  withLazyLoading : Nat
deriving DecidableEq

/-- SemanticResult from types.ts. -/
structure SemanticResult where
  classification : String
  headings : HeadingsInfo
  landmarks : LandmarksInfo
  divRatio : ℚ
  linkIssues : Nat
  timeElements : TimeInfo
  lists : ListsInfo
  tables : TablesInfo
  langAttribute : Bool
  images : ImageResult
deriving DecidableEq

/-- AnalysisResult from types.ts.  The field named structure in TypeScript
is called structure_ here because structure is a Lean keyword. -/
structure AnalysisResult where
  url : String
  structure_ : StructureResult
  semantics : SemanticResult

/-! ## src/analysis/compare.ts -/

/-- Elementwise comparison of the childTags arrays (the index loop in
treesEqual, run after the length check). -/
def childTagsEqual : List String → List String → Bool
  | [], [] => true
  | x :: xs, y :: ys => x == y && childTagsEqual xs ys
  | _, _ => false

/-- treesEqual from compare.ts: shallow structural equality of two
fingerprints (same tag, same length, elementwise equal childTags). -/
def treesEqual (a b : NormalizedNode) : Bool :=
  if a.tag != b.tag then false
  else if a.childTags.length != b.childTags.length then false
  else childTagsEqual a.childTags b.childTags

/-- DomMetrics from compare.ts. -/
structure DomMetrics where
  domNodes : Nat
  maxDepth : Nat
  topLevelSections : Nat

/-- SKIP_TAGS from compare.ts. -/
def SKIP_TAGS : List String := ["script", "style", "noscript", "svg", "path"]

/-- SECTION_TAGS from compare.ts. -/
def SECTION_TAGS : List String :=
  ["header", "nav", "main", "section", "article", "aside", "footer"]

mutual
/-- Contribution to the domNodes counter of the walk in analyzeDomMetrics:
elements with a tag in SKIP_TAGS are returned from without counting them or
their subtrees. -/
def walkCount : Node → Nat
  | .text _ => 0
  | .element t _ cs => if SKIP_TAGS.contains t then 0 else 1 + walkCountList cs

def walkCountList : List Node → Nat
  | [] => 0
  | c :: cs => walkCount c + walkCountList cs
end

mutual
/-- Contribution to the maxDepth counter of the walk in analyzeDomMetrics:
each visited (non-skipped) element raises the running maximum to its depth;
children are visited at depth + 1. -/
def walkDepth (depth : Nat) : Node → Nat
  | .text _ => 0
  | .element t _ cs =>
      if SKIP_TAGS.contains t then 0 else max depth (walkDepthList (depth + 1) cs)

def walkDepthList (depth : Nat) : List Node → Nat
  | [] => 0
  | c :: cs => max (walkDepth depth c) (walkDepthList depth cs)
end

/-- analyzeDomMetrics from compare.ts.  The walk starts at the body element
with depth 1; top-level sections are the direct element children of body
whose tag is in SECTION_TAGS.  (The no-body early return is unreachable:
DOMParser in text/html mode always produces a body element.) -/
def analyzeDomMetrics (d : Doc) : DomMetrics :=
  { domNodes := walkCount d.body
    maxDepth := walkDepth 1 d.body
    topLevelSections :=
      (childrenOf d.body).countP (fun c => SECTION_TAGS.contains (tagOf c)) }

/-- Pairwise difference counter of compare: the nested loop compares every
trees[i] against every later trees[j] and counts the unequal pairs. -/
def countDiffs : List NormalizedNode → Nat
  | [] => 0
  | t :: ts => ts.countP (fun u => !(treesEqual t u)) + countDiffs ts

/-- compare from compare.ts.  The returned record spreads domMetrics, which
does not contain a customElements field, so that field of the result is
absent (none). -/
def compare (trees : List NormalizedNode) (domMetrics : DomMetrics) : StructureResult :=
  let differences := countDiffs trees
  let classification : String :=
    if differences = 0 then "deterministic"
    else if differences = 1 then "mostly-deterministic"
    else "unstable"
  { classification := classification
    differenceCount := differences
    domNodes := domMetrics.domNodes
    maxDepth := domMetrics.maxDepth
    topLevelSections := domMetrics.topLevelSections
    customElements := none }

/-! ## src/analysis/semantics.ts -/

/-- LANDMARK_TAGS from semantics.ts. -/
def LANDMARK_TAGS : List String :=
  ["main", "nav", "header", "footer", "aside", "article"]

/-- SEMANTIC_TAGS from semantics.ts. -/
def SEMANTIC_TAGS : List String :=
  ["main", "nav", "header", "footer", "aside", "article", "section", "figure"]

/-- GENERIC_LINK_TEXT from semantics.ts. -/
def GENERIC_LINK_TEXT : List String :=
  ["click here", "here", "read more", "more", "learn more", "link"]

/-- Numeric heading level for the tags matched by the selector
h1, h2, h3, h4, h5, h6 (parseInt of the second character of the tag
name). -/
def hLevel (t : String) : Option Nat :=
  if t == "h1" then some 1
  else if t == "h2" then some 2
  else if t == "h3" then some 3
  else if t == "h4" then some 4
  else if t == "h5" then some 5
  else if t == "h6" then some 6
  else none

/-- Levels of all heading elements in document order (the levels array of
checkSemantics). -/
def headingLevels (d : Doc) : List Nat :=
  (elemsOf d.body).filterMap (fun e => hLevel (tagOf e))

/-- h1Count of checkSemantics: number of level-1 entries. -/
def h1CountOf (d : Doc) : Nat :=
  (headingLevels d).countP (fun l => l == 1)

/-- Forward scan of the hasSkips loop: given the previous level, report
whether some later adjacent pair jumps by more than one. -/
def hasSkipsFrom : Nat → List Nat → Bool
  | _, [] => false
  | prev, l :: ls => if prev + 1 < l then true else hasSkipsFrom l ls

/-- hasSkips of checkSemantics: some adjacent pair of heading levels in
document order jumps by more than one. -/
def hasSkipsOf (levels : List Nat) : Bool :=
  match levels with
  | [] => false
  | l :: ls => hasSkipsFrom l ls

/-- found of checkSemantics: the landmark tags (in LANDMARK_TAGS order) for
which querySelector finds at least one element. -/
def foundOf (d : Doc) : List String :=
  LANDMARK_TAGS.filter (fun t => countTag t d.body != 0)

/-- Test whether a tag is one of the landmark tags. -/
def isLandmarkTag (t : String) : Bool :=
  LANDMARK_TAGS.contains t

mutual
/-- Accumulated text length of the topmost landmark elements of a subtree:
a landmark element that is not nested inside another landmark contributes
the length of its whole textContent, and its subtree is not searched
further (the isNested check of checkSemantics skips every landmark that has
a landmark ancestor). -/
def topLandmarkTextLen : Node → Nat
  | .text _ => 0
  | .element t _ cs =>
      if isLandmarkTag t then (textContentList cs).length
      else topLandmarkTextLenList cs

def topLandmarkTextLenList : List Node → Nat
  | [] => 0
  | c :: cs => topLandmarkTextLen c + topLandmarkTextLenList cs
end

/-- Math.round of 100 * num / den for den > 0, as computed on exact
rationals: JavaScript Math.round rounds half toward positive infinity,
that is round(x) = floor(x + 1/2). -/
def jsRound100 (num den : Nat) : Nat :=
  (200 * num + den) / (2 * den)

/-- coveragePercent of checkSemantics.  totalText is the length of the body
textContent (the fallback to 1 in the source only fires when body or
textContent is null, which never happens for a parsed document, so an
empty body yields totalText = 0).  When totalText = 0 the JavaScript
division is 0/0 = NaN, Math.round and Math.min propagate the NaN, and the
stored coveragePercent is NaN: modelled as none. -/
def coveragePercentOf (d : Doc) : Option Nat :=
  let totalText := (textContent d.body).length
  let landmarkText := topLandmarkTextLen d.body
  if totalText = 0 then none
  else some (min 100 (jsRound100 landmarkText totalText))

/-- divCount of checkSemantics: querySelectorAll of div, span. -/
def divCountOf (d : Doc) : Nat :=
  countTag "div" d.body + countTag "span" d.body

/-- semanticCount of checkSemantics: summed counts of the SEMANTIC_TAGS. -/
def semanticCountOf (d : Doc) : Nat :=
  (SEMANTIC_TAGS.map (fun t => countTag t d.body)).sum

/-- divRatio of checkSemantics, as an exact rational: divCount divided by
divCount + semanticCount + 1 (mkRat of a numerator and a positive
denominator is exactly that quotient). -/
def divRatioOf (d : Doc) : ℚ :=
  mkRat (Int.ofNat (divCountOf d)) (divCountOf d + semanticCountOf d + 1)

/-- Flagging of one anchor in the link-issues loop of checkSemantics: the
three conditions are tested in an if / else-if chain, so an anchor is
counted at most once however many conditions hold. -/
def linkFlagged (a : Node) : Bool :=
  let txt := jsToLower (jsTrim (textContent a))
  let href := (getAttr (attrsOf a) "href").getD ""
  if txt == "" && !((elemsOf a).any fun e => tagOf e == "img" && hasAttr (attrsOf e) "alt") then
    true
  else if GENERIC_LINK_TEXT.contains txt then true
  else if jsStartsWith href "javascript:" then true
  else false

/-- All anchor elements of the document in document order. -/
def anchorsOf (d : Doc) : List Node :=
  (elemsOf d.body).filter (fun e => tagOf e == "a")

/-- linkIssues of checkSemantics. -/
def linkIssuesOf (d : Doc) : Nat :=
  (anchorsOf d).countP linkFlagged

mutual
/-- Image collection: every img element of a subtree in document order,
paired with whether it has a figure ancestor (closest of the figure
selector on an img element is an ancestor search, since an img is not a
figure). -/
def imgsIn (inFig : Bool) : Node → List (Attrs × Bool)
  | .text _ => []
  | .element t a cs =>
      (if t == "img" then [(a, inFig)] else []) ++
        imgsInList (inFig || t == "figure") cs

def imgsInList (inFig : Bool) : List Node → List (Attrs × Bool)
  | [] => []
  | c :: cs => imgsIn inFig c ++ imgsInList inFig cs
end

/-- The img elements of a document with their figure-ancestor flag. -/
def imgsOf (d : Doc) : List (Attrs × Bool) :=
  imgsIn false d.body

/-- First branch of the alt classification: getAttribute returned null. -/
def altMissing (a : Attrs) : Bool :=
  (getAttr a "alt").isNone

/-- Second branch of the alt classification: alt present and the empty
string. -/
def altEmpty (a : Attrs) : Bool :=
  getAttr a "alt" == some ""

/-- Final branch of the alt classification: alt present and non-empty. -/
def altWith (a : Attrs) : Bool :=
  match getAttr a "alt" with
  | some s => s != ""
  | none => false

/-- Image counters of checkSemantics. -/
def imagesOf (d : Doc) : ImageResult :=
  let imgs := imgsOf d
  { total := imgs.length
    withAlt := imgs.countP (fun p => altWith p.1)
    emptyAlt := imgs.countP (fun p => altEmpty p.1)
    missingAlt := imgs.countP (fun p => altMissing p.1)
    inFigure := imgs.countP (fun p => p.2)
    withDimensions := imgs.countP (fun p => hasAttr p.1 "width" && hasAttr p.1 "height")
    withSrcset := imgs.countP (fun p => hasAttr p.1 "srcset")
    withLazyLoading := imgs.countP (fun p => getAttr p.1 "loading" == some "lazy") }

/-- Coverage gate of the score: the JavaScript comparison
coveragePercent >= 80, which is false when coveragePercent is NaN. -/
def covAtLeast80 : Option Nat → Prop
  | some c => 80 ≤ c
  | none => False

instance : DecidablePred covAtLeast80 := fun o =>
  match o with
  | some c => inferInstanceAs (Decidable (80 ≤ c))
  | none => inferInstanceAs (Decidable False)

/-- Score accumulation of checkSemantics: four independent boolean gates.
The literal 0.6 of the source is the exact rational 3/5 (the double nearest
to decimal 0.6 is also the double computed for 3.0/5.0, so the JavaScript
comparison agrees with the exact rational one). -/
def semScore (d : Doc) : Nat :=
  (if h1CountOf d = 1 ∧ hasSkipsOf (headingLevels d) = false then 25 else 0)
  + (if covAtLeast80 (coveragePercentOf d) then 30 else 0)
  + (if divRatioOf d < mkRat (Int.ofNat 3) 5 then 25 else 0)
  + (if linkIssuesOf d = 0 then 20 else 0)

/-- Classification if-chain of checkSemantics. -/
def semClass (score : Nat) : String :=
  if 75 ≤ score then "explicit"
  else if 40 ≤ score then "partial"
  else "opaque"

/-- checkSemantics from semantics.ts, assembled from the sub-analyses
above. -/
def checkSemantics (d : Doc) : SemanticResult :=
  { classification := semClass (semScore d)
    headings := { h1Count := h1CountOf d, hasSkips := hasSkipsOf (headingLevels d) }
    landmarks := { found := foundOf d, coveragePercent := coveragePercentOf d }
    divRatio := divRatioOf d
    linkIssues := linkIssuesOf d
    timeElements :=
      { total := countTag "time" d.body
        withDatetime :=
          (elemsOf d.body).countP
            (fun e => tagOf e == "time" && hasAttr (attrsOf e) "datetime") }
    lists :=
      { total := countTag "ol" d.body + countTag "ul" d.body + countTag "dl" d.body
        ordered := countTag "ol" d.body
        unordered := countTag "ul" d.body
        description := countTag "dl" d.body }
    tables :=
      { total := countTag "table" d.body
        withHeaders :=
          (elemsOf d.body).countP
            (fun e =>
              tagOf e == "table" &&
                (elemsOf e).any (fun x => tagOf x == "thead" || tagOf x == "th")) }
    langAttribute := hasAttr d.htmlAttrs "lang"
    images := imagesOf d }

/-! ## src/analysis/index.ts -/

/-- Tag name of an element child (DOM .children skips text nodes). -/
def elemTag : Node → Option String
  | .element t _ _ => some t
  | .text _ => none

/-- Modelled from the spec: normalize (the Tree Normalizer of section 4.1).
Its source file src/analysis/normalize.ts is not among the provided
sources; only its caller and its result type are.  Per the spec it reduces
a parsed document to the shape fingerprint of its body: the lowercased tag
name together with the ordered list of the direct children's tag names. -/
def normalize (d : Doc) : NormalizedNode :=
  { tag := tagOf d.body
    childTags := (childrenOf d.body).filterMap elemTag }

/-- Document that results from indexing an empty htmlSamples array:
htmlSamples[0] is undefined in JavaScript, DOMParser.parseFromString
coerces undefined to the literal string "undefined", and parsing that
string in text/html mode yields a document whose body holds exactly that
text (and whose html element has no attributes). -/
def undefinedDoc : Doc :=
  { body := .element "body" [] [.text "undefined"], htmlAttrs := [] }

/-- analyze from index.ts.  JavaScript array indexing is total: out of
bounds it yields undefined, which the downstream parser coerces as
described at undefinedDoc, so the sample at index 0 is modelled with getD
and that fallback document.  For a non-empty sample list the fallback is
never used. -/
def analyze (htmlSamples : List Doc) (url : String) : AnalysisResult :=
  let trees := htmlSamples.map normalize
  let domMetrics := analyzeDomMetrics (htmlSamples.getD 0 undefinedDoc)
  let structure_ := compare trees domMetrics
  let semantics := checkSemantics (htmlSamples.getD 0 undefinedDoc)
  { url := url, structure_ := structure_, semantics := semantics }

/-! ## Specification-side notions and concrete documents -/

/-- Shallow structural equality of fingerprints as the specification words
it: same tag and elementwise equal childTags sequences. -/
def shallowEq (a b : NormalizedNode) : Prop :=
  a.tag = b.tag ∧ a.childTags = b.childTags

instance (a b : NormalizedNode) : Decidable (shallowEq a b) :=
  decidable_of_iff (a.tag = b.tag ∧ a.childTags = b.childTags) Iff.rfl

/-- Number of unordered index pairs (i, j), i < j, of the fingerprint
sequence whose members are not shallowly structurally equal: the
specification's description of differenceCount. -/
def pairDiffCount (trees : List NormalizedNode) : Nat :=
  ((Finset.range trees.length ×ˢ Finset.range trees.length).filter
    (fun p => p.1 < p.2 ∧
      ¬ shallowEq (trees.getD p.1 ⟨"", []⟩) (trees.getD p.2 ⟨"", []⟩))).card

/-- Scenario A of the spec: one h1, one main wrapping all of the body text,
no div or span, no links. -/
def scenarioA : Doc :=
  { body := .element "body" []
      [.element "main" [] [.element "h1" [] [.text "Hello"]]]
    htmlAttrs := [] }

/-- A document whose body is present but has empty text content. -/
def emptyBodyDoc : Doc :=
  { body := .element "body" [] [], htmlAttrs := [] }

/-- Scenario E of the spec: an img with empty alt and width/height inside a
figure. -/
def scenarioE : Doc :=
  { body := .element "body" []
      [.element "figure" []
        [.element "img" [("alt", ""), ("width", "10"), ("height", "20")] []]]
    htmlAttrs := [] }

/-- A document with one anchor for which two flag conditions hold at once:
generic link text (Here, lowercased here) and a javascript: href. -/
def multiFlagDoc : Doc :=
  { body := .element "body" []
      [.element "a" [("href", "javascript:void(0)")] [.text "Here"]]
    htmlAttrs := [] }

/-! ## Helper lemmas -/

theorem childTagsEqual_iff (xs ys : List String) :
    childTagsEqual xs ys = true ↔ xs = ys := by
  induction xs generalizing ys with
  | nil => cases ys <;> simp [childTagsEqual]
  | cons x xs ih =>
    cases ys with
    | nil => simp [childTagsEqual]
    | cons y ys => simp [childTagsEqual, ih]

theorem treesEqual_iff (a b : NormalizedNode) :
    treesEqual a b = true ↔ shallowEq a b := by
  unfold treesEqual shallowEq
  by_cases ht : a.tag = b.tag
  · by_cases hl : a.childTags.length = b.childTags.length
    · simp [ht, hl, childTagsEqual_iff]
    · simp only [ht, bne_self_eq_false, Bool.false_eq_true, if_false, bne_iff_ne, ne_eq,
        hl, not_false_eq_true, if_true]
      constructor
      · intro h; exact absurd h (by simp)
      · intro h; exact absurd (by rw [h.2]) hl
  · simp [ht, bne_iff_ne]

theorem sum_ite_getD_eq_countP {α : Type} (l : List α) (dflt : α) (p : α → Bool) :
    (∑ j in Finset.range l.length, if p (l.getD j dflt) = true then 1 else 0)
      = l.countP p := by
  induction l with
  | nil => simp
  | cons a l ih =>
    rw [List.length_cons, Finset.sum_range_succ']
    simp only [List.getD_cons_succ, List.getD_cons_zero, ih, List.countP_cons]

theorem ite_not_shallowEq (t u : NormalizedNode) (j : Nat) :
    (if 0 < j + 1 ∧ ¬ shallowEq t u then (1 : Nat) else 0)
      = if (!(treesEqual t u)) = true then 1 else 0 := by
  have h01 : 0 < j + 1 := Nat.succ_pos j
  by_cases h : shallowEq t u
  · have ht := (treesEqual_iff t u).2 h
    simp [h, ht]
  · have hf : treesEqual t u = false := by
      cases htr : treesEqual t u
      · rfl
      · exact absurd ((treesEqual_iff t u).1 htr) h
    simp [h, hf, h01]

theorem countDiffs_eq_sum (l : List NormalizedNode) :
    countDiffs l
      = ∑ i in Finset.range l.length, ∑ j in Finset.range l.length,
          if i < j ∧ ¬ shallowEq (l.getD i ⟨"", []⟩) (l.getD j ⟨"", []⟩) then 1 else 0 := by
  induction l with
  | nil => simp [countDiffs]
  | cons t ts ih =>
    rw [countDiffs, List.length_cons, Finset.sum_range_succ']
    have h0 : (∑ j in Finset.range (ts.length + 1),
        if 0 < j ∧ ¬ shallowEq ((t :: ts).getD 0 ⟨"", []⟩) ((t :: ts).getD j ⟨"", []⟩)
        then 1 else 0)
        = ts.countP (fun u => !(treesEqual t u)) := by
      rw [Finset.sum_range_succ']
      simp only [List.getD_cons_succ, List.getD_cons_zero]
      rw [Finset.sum_congr rfl (fun j _ => ite_not_shallowEq t (ts.getD j ⟨"", []⟩) j)]
      rw [sum_ite_getD_eq_countP ts ⟨"", []⟩ (fun u => !(treesEqual t u))]
      simp
    have hrow : ∀ i, (∑ j in Finset.range (ts.length + 1),
        if i + 1 < j ∧ ¬ shallowEq ((t :: ts).getD (i + 1) ⟨"", []⟩) ((t :: ts).getD j ⟨"", []⟩)
        then 1 else 0)
        = ∑ j in Finset.range ts.length,
            if i < j ∧ ¬ shallowEq (ts.getD i ⟨"", []⟩) (ts.getD j ⟨"", []⟩) then 1 else 0 := by
      intro i
      rw [Finset.sum_range_succ']
      simp [List.getD_cons_succ, Nat.succ_lt_succ_iff]
    rw [h0]
    rw [Finset.sum_congr rfl (fun i _ => hrow i), ← ih]
    omega

theorem pairDiffCount_eq_sum (l : List NormalizedNode) :
    pairDiffCount l
      = ∑ i in Finset.range l.length, ∑ j in Finset.range l.length,
          if i < j ∧ ¬ shallowEq (l.getD i ⟨"", []⟩) (l.getD j ⟨"", []⟩) then 1 else 0 := by
  unfold pairDiffCount
  rw [Finset.card_filter, Finset.sum_product]

theorem countDiffs_eq_pairDiffCount (l : List NormalizedNode) :
    countDiffs l = pairDiffCount l := by
  rw [countDiffs_eq_sum, pairDiffCount_eq_sum]

theorem compare_classification_eq (trees : List NormalizedNode) (dm : DomMetrics) :
    (compare trees dm).classification
      = (if countDiffs trees = 0 then "deterministic"
         else if countDiffs trees = 1 then "mostly-deterministic"
         else "unstable") := rfl

theorem countDiffs_le_choose (l : List NormalizedNode) :
    countDiffs l ≤ l.length.choose 2 := by
  induction l with
  | nil => simp [countDiffs]
  | cons t ts ih =>
    rw [countDiffs, List.length_cons]
    have h1 : ts.countP (fun u => !(treesEqual t u)) ≤ ts.length :=
      List.countP_le_length _
    have h2 : (ts.length + 1).choose 2 = ts.length + ts.length.choose 2 := by
      rw [Nat.choose_succ_succ, Nat.choose_one_right]
    omega

theorem classif_string_iff (k : Nat) :
    ((if k = 0 then "deterministic" else if k = 1 then "mostly-deterministic" else "unstable")
        = "deterministic" ↔ k = 0)
    ∧ ((if k = 0 then "deterministic" else if k = 1 then "mostly-deterministic" else "unstable")
        = "mostly-deterministic" ↔ k = 1)
    ∧ ((if k = 0 then "deterministic" else if k = 1 then "mostly-deterministic" else "unstable")
        = "unstable" ↔ 2 ≤ k) := by
  rcases k with _ | _ | k
  · refine ⟨by simp, by simp, by simp⟩
  · refine ⟨by simp, by simp, by simp⟩
  · refine ⟨by simp, by simp, by simp⟩

theorem semClass_explicit_iff (s : Nat) : semClass s = "explicit" ↔ 75 ≤ s := by
  by_cases h75 : 75 ≤ s
  · simp [semClass, h75]
  · by_cases h40 : 40 ≤ s
    · simp [semClass, h75, h40]
    · simp [semClass, h75, h40]

theorem semClass_partial_iff (s : Nat) : semClass s = "partial" ↔ 40 ≤ s ∧ s < 75 := by
  by_cases h75 : 75 ≤ s
  · simp [semClass, h75]
  · by_cases h40 : 40 ≤ s
    · simp [semClass, h75, h40]
      omega
    · simp [semClass, h75, h40]

theorem semClass_opaque_iff (s : Nat) : semClass s = "opaque" ↔ s < 40 := by
  by_cases h75 : 75 ≤ s
  · simp [semClass, h75]
    omega
  · by_cases h40 : 40 ≤ s
    · simp [semClass, h75, h40]
    · simp [semClass, h75, h40]
      omega

theorem countP_alt_partition (l : List (Attrs × Bool)) :
    l.countP (fun p => altWith p.1) + l.countP (fun p => altEmpty p.1)
      + l.countP (fun p => altMissing p.1) = l.length := by
  induction l with
  | nil => simp
  | cons a l ih =>
    simp only [List.countP_cons, List.length_cons]
    rcases h : getAttr a.1 "alt" with _ | s
    · have h1 : altWith a.1 = false := by simp [altWith, h]
      have h2 : altEmpty a.1 = false := by simp [altEmpty, h]
      have h3 : altMissing a.1 = true := by simp [altMissing, h]
      simp [h1, h2, h3]
      omega
    · by_cases hs : s = ""
      · subst hs
        have h1 : altWith a.1 = false := by simp [altWith, h]
        have h2 : altEmpty a.1 = true := by simp [altEmpty, h]
        have h3 : altMissing a.1 = false := by simp [altMissing, h]
        simp [h1, h2, h3]
        omega
      · have h1 : altWith a.1 = true := by simp [altWith, h, hs]
        have h2 : altEmpty a.1 = false := by simp [altEmpty, h, hs]
        have h3 : altMissing a.1 = false := by simp [altMissing, h]
        simp [h1, h2, h3]
        omega

/-! ## Claim theorems -/

/-- C1: for every fingerprint sequence, compare returns differenceCount
equal to the number of unordered pairs (i, j), i < j, whose fingerprints
are not shallowly structurally equal (same tag and elementwise equal
childTags); classification is deterministic iff differenceCount = 0,
mostly-deterministic iff it is 1 and unstable iff it is at least 2; and for
any single-element or empty sequence differenceCount is 0 and the
classification deterministic. -/
theorem compare_pairwise_spec (trees : List NormalizedNode) (dm : DomMetrics) :
    (compare trees dm).differenceCount = pairDiffCount trees
    ∧ ((compare trees dm).classification = "deterministic"
        ↔ (compare trees dm).differenceCount = 0)
    ∧ ((compare trees dm).classification = "mostly-deterministic"
        ↔ (compare trees dm).differenceCount = 1)
    ∧ ((compare trees dm).classification = "unstable"
        ↔ 2 ≤ (compare trees dm).differenceCount)
    ∧ (∀ t, (compare [t] dm).differenceCount = 0
        ∧ (compare [t] dm).classification = "deterministic")
    ∧ (compare [] dm).differenceCount = 0
    ∧ (compare [] dm).classification = "deterministic" := by
  have hd : (compare trees dm).differenceCount = countDiffs trees := rfl
  have hcl := classif_string_iff (countDiffs trees)
  refine ⟨countDiffs_eq_pairDiffCount trees, ?_, ?_, ?_, ?_, rfl, rfl⟩
  · rw [compare_classification_eq, hd]; exact hcl.1
  · rw [compare_classification_eq, hd]; exact hcl.2.1
  · rw [compare_classification_eq, hd]; exact hcl.2.2
  · intro t
    exact ⟨rfl, rfl⟩

/-- C9: differenceCount is at most n(n-1)/2 for n fingerprints, and with at
most two fingerprints the classification is never unstable. -/
theorem compare_differenceCount_bound (trees : List NormalizedNode) (dm : DomMetrics) :
    (compare trees dm).differenceCount ≤ trees.length * (trees.length - 1) / 2
    ∧ (trees.length ≤ 2 → (compare trees dm).classification ≠ "unstable") := by
  have hc := countDiffs_le_choose trees
  rw [Nat.choose_two_right] at hc
  refine ⟨hc, ?_⟩
  intro h2
  have hle : countDiffs trees ≤ 1 := by
    have hn : trees.length = 0 ∨ trees.length = 1 ∨ trees.length = 2 := by omega
    rcases hn with h | h | h <;> rw [h] at hc <;> omega
  rw [compare_classification_eq]
  rcases hk : countDiffs trees with _ | _ | k
  · simp
  · simp
  · rw [hk] at hle; omega

/-- Witness for C9 at a concrete two-element input whose fingerprints
differ: the hypothesis (at most two fingerprints) holds and the
classification is not unstable. -/
theorem compare_differenceCount_bound_witness :
    (compare [⟨"body", ["div"]⟩, ⟨"body", []⟩] ⟨0, 0, 0⟩).differenceCount
        ≤ [⟨"body", ["div"]⟩, (⟨"body", []⟩ : NormalizedNode)].length
            * ([⟨"body", ["div"]⟩, (⟨"body", []⟩ : NormalizedNode)].length - 1) / 2
    ∧ (compare [⟨"body", ["div"]⟩, ⟨"body", []⟩] ⟨0, 0, 0⟩).classification ≠ "unstable" := by
  have h := compare_differenceCount_bound [⟨"body", ["div"]⟩, ⟨"body", []⟩] ⟨0, 0, 0⟩
  exact ⟨h.1, h.2 (by decide)⟩

/-- C5 (code bug): every StructureResult the pipeline produces lacks the
customElements shadow-DOM-host count that the StructureResult type
declares: compare builds its record without that field, so it is undefined
(none), not a non-negative integer. -/
theorem compare_customElements_none (trees : List NormalizedNode) (dm : DomMetrics) :
    (compare trees dm).customElements = none := rfl

/-- C6: analyze computes the SemanticResult and the DOM metrics from the
first sample only: two invocations with the same first sample and the same
url agree on the whole semantics field and on domNodes, maxDepth and
topLevelSections (and on url), whatever the remaining samples are. -/
theorem analyze_first_sample_only (d : Doc) (rest1 rest2 : List Doc) (u : String) :
    (analyze (d :: rest1) u).semantics = (analyze (d :: rest2) u).semantics
    ∧ (analyze (d :: rest1) u).structure_.domNodes
        = (analyze (d :: rest2) u).structure_.domNodes
    ∧ (analyze (d :: rest1) u).structure_.maxDepth
        = (analyze (d :: rest2) u).structure_.maxDepth
    ∧ (analyze (d :: rest1) u).structure_.topLevelSections
        = (analyze (d :: rest2) u).structure_.topLevelSections
    ∧ (analyze (d :: rest1) u).url = (analyze (d :: rest2) u).url :=
  ⟨rfl, rfl, rfl, rfl, rfl⟩

/-- C8 (counterexample): analyze applied to an empty sample sequence does
not fail fast: JavaScript indexing yields undefined, DOMParser coerces it
to the string "undefined", and analyze silently returns a fully populated,
meaningless AnalysisResult, exhibited here at a concrete url. -/
theorem analyze_empty_no_failure :
    (analyze [] "https://example.com").structure_.classification = "deterministic"
    ∧ (analyze [] "https://example.com").structure_.differenceCount = 0
    ∧ (analyze [] "https://example.com").structure_.domNodes = 1
    ∧ (analyze [] "https://example.com").semantics.classification = "partial" := by
  refine ⟨rfl, rfl, by decide, by decide⟩

/-- C8 (amended): for every url, analyze on the empty sample sequence
silently returns the meaningless result computed from the coerced
"undefined" document: structure classification deterministic with zero
differences, semantics those of the undefined document (classification
partial). -/
theorem analyze_empty_behavior (u : String) :
    (analyze [] u).url = u
    ∧ (analyze [] u).structure_.classification = "deterministic"
    ∧ (analyze [] u).structure_.differenceCount = 0
    ∧ (analyze [] u).semantics = checkSemantics undefinedDoc
    ∧ (analyze [] u).semantics.classification = "partial" := by
  refine ⟨rfl, rfl, rfl, rfl, ?_⟩
  show (checkSemantics undefinedDoc).classification = "partial"
  decide

/-- C3 (code bug): the coverage denominator is not floored at one
character: for a document whose body has empty text content the source
computes 0/0 = NaN (modelled none), so coveragePercent is not an integer
in [0, 100] there. -/
theorem coveragePercent_nan_on_empty_body :
    (checkSemantics emptyBodyDoc).landmarks.coveragePercent = none := by decide

/-- C7: divRatio equals divCount / (divCount + semanticCount + 1) and is
always in the half-open interval [0, 1): never exactly 1 thanks to the
plus-one term of the denominator. -/
theorem divRatio_formula_and_bounds (d : Doc) :
    (checkSemantics d).divRatio
        = (divCountOf d : ℚ) / ((divCountOf d : ℚ) + (semanticCountOf d : ℚ) + 1)
    ∧ 0 ≤ (checkSemantics d).divRatio
    ∧ (checkSemantics d).divRatio < 1 := by
  have hq : (checkSemantics d).divRatio
      = (divCountOf d : ℚ) / ((divCountOf d : ℚ) + (semanticCountOf d : ℚ) + 1) := by
    show divRatioOf d = _
    unfold divRatioOf
    rw [Rat.mkRat_eq_div]
    push_cast [Int.ofNat_eq_natCast]
    ring
  refine ⟨hq, ?_, ?_⟩
  · rw [hq]; positivity
  · rw [hq]
    rw [div_lt_one (by positivity)]
    have h0 : (0 : ℚ) ≤ (semanticCountOf d : ℚ) := by positivity
    linarith

/-- C4: the three alt-status counters partition the images (their sum is
the total), and, at scenario E, an img with empty alt inside a figure with
width and height counts toward emptyAlt, inFigure and withDimensions
simultaneously and toward neither withAlt nor missingAlt. -/
theorem images_alt_partition :
    (∀ d : Doc,
      (checkSemantics d).images.withAlt + (checkSemantics d).images.emptyAlt
        + (checkSemantics d).images.missingAlt = (checkSemantics d).images.total)
    ∧ (checkSemantics scenarioE).images.emptyAlt = 1
    ∧ (checkSemantics scenarioE).images.inFigure = 1
    ∧ (checkSemantics scenarioE).images.withDimensions = 1
    ∧ (checkSemantics scenarioE).images.withAlt = 0
    ∧ (checkSemantics scenarioE).images.missingAlt = 0
    ∧ (checkSemantics scenarioE).images.total = 1 := by
  refine ⟨?_, by decide, by decide, by decide, by decide, by decide, by decide⟩
  intro d
  exact countP_alt_partition (imgsOf d)

/-- C10: each anchor contributes at most one unit to linkIssues, so
linkIssues never exceeds the number of anchors; at a concrete document
whose single anchor has generic text and a javascript: href at once, both
flag conditions hold yet linkIssues is exactly 1. -/
theorem linkIssues_at_most_one_per_anchor :
    (∀ d : Doc, (checkSemantics d).linkIssues ≤ (anchorsOf d).length)
    ∧ GENERIC_LINK_TEXT.contains
        (jsToLower (jsTrim (textContent
          (.element "a" [("href", "javascript:void(0)")] [.text "Here"])))) = true
    ∧ jsStartsWith "javascript:void(0)" "javascript:" = true
    ∧ (checkSemantics multiFlagDoc).linkIssues = 1
    ∧ (anchorsOf multiFlagDoc).length = 1 := by
  refine ⟨?_, by decide, by decide, by decide, by decide⟩
  intro d
  exact List.countP_le_length _

/-- C2: the semantic score is exactly the sum of the four weighted gates
(25 for a single h1 without skips, 30 for coverage at least 80, 25 for
divRatio below 0.6, 20 for zero link issues), the classification follows
the 75/40 thresholds, and scenario A (one h1, one main wrapping all body
text, no div/span, no links) scores 100 and is classified explicit. -/
theorem checkSemantics_score_spec :
    (∀ d : Doc,
      semScore d
          = 25 * (if (checkSemantics d).headings.h1Count = 1
                    ∧ (checkSemantics d).headings.hasSkips = false then 1 else 0)
          + 30 * (if covAtLeast80 (checkSemantics d).landmarks.coveragePercent then 1 else 0)
          + 25 * (if (checkSemantics d).divRatio < mkRat (Int.ofNat 3) 5 then 1 else 0)
          + 20 * (if (checkSemantics d).linkIssues = 0 then 1 else 0)
      ∧ ((checkSemantics d).classification = "explicit" ↔ 75 ≤ semScore d)
      ∧ ((checkSemantics d).classification = "partial"
          ↔ 40 ≤ semScore d ∧ semScore d < 75)
      ∧ ((checkSemantics d).classification = "opaque" ↔ semScore d < 40))
    ∧ semScore scenarioA = 100
    ∧ (checkSemantics scenarioA).classification = "explicit" := by
  refine ⟨?_, by decide, by decide⟩
  intro d
  refine ⟨?_, semClass_explicit_iff _, semClass_partial_iff _, semClass_opaque_iff _⟩
  show semScore d
      = 25 * (if h1CountOf d = 1 ∧ hasSkipsOf (headingLevels d) = false then 1 else 0)
      + 30 * (if covAtLeast80 (coveragePercentOf d) then 1 else 0)
      + 25 * (if divRatioOf d < mkRat (Int.ofNat 3) 5 then 1 else 0)
      + 20 * (if linkIssuesOf d = 0 then 1 else 0)
  unfold semScore
  by_cases c1 : h1CountOf d = 1 ∧ hasSkipsOf (headingLevels d) = false <;>
    by_cases c2 : covAtLeast80 (coveragePercentOf d) <;>
      by_cases c3 : divRatioOf d < mkRat (Int.ofNat 3) 5 <;>
        by_cases c4 : linkIssuesOf d = 0 <;>
          simp [c1, c2, c3, c4]

end DocSignals
